import Mathlib

/-!
Shallow embedding of the A2P 10DLC compliance engine
(`src/agent_core.py`, `src/compliance_strand.py`).

Python strings are modelled as Lean `String` (a list of code points);
`x in s` (substring test) is modelled by `strContains`, `str.lower()` by
`toLowerStr` (per-character lowering; the texts involved are ASCII),
`s.split(sep)[i]` by `splitOnChar`, and exceptions caught by the engine
(`IndexError` from a missing `@`, `ValueError` from `urlparse`) by
`Option` results.  Regex patterns in the rule catalog are literal phrases
except for an optional `[-\s]?` separator, modelled by `optSepMatch`.
Scores are Python ints, modelled as `Int` with the clamp made explicit;
float constants (confidence bands, summary rounding) are modelled as
exact rationals, with Python round-half-to-even rounding modelled on
rationals by `round_half_even`.
-/

/-- Substring test on code-point lists: `subOf n h` is true iff `n` occurs
contiguously inside `h` (Python `n in h` for strings). -/
def subOf (needle : List Char) : List Char → Bool
  | [] => needle.isEmpty
  | c :: t => needle.isPrefixOf (c :: t) || subOf needle t

/-- Python `needle in hay` for strings. -/
def strContains (hay needle : String) : Bool :=
  subOf needle.data hay.data

/-- Python `str.lower()` (per-code-point; the engine only handles ASCII rule
text, and `Char.toLower` agrees with Python on ASCII). -/
def toLowerStr (s : String) : String :=
  ⟨s.data.map Char.toLower⟩

/-- Python `str.split(sep)` for a one-character separator. -/
def splitOnChar (sep : Char) : List Char → List (List Char)
  | [] => [[]]
  | c :: cs =>
    let r := splitOnChar sep cs
    if c = sep then [] :: r else (c :: r.headD []) :: r.tail

/-- The characters matched by the regex class `[-\s]` (hyphen or ASCII
whitespace, as Python `\s` matches on this ASCII rule text). -/
def sepChars : List Char := ['-', ' ', '\t', '\n', '\x0b', '\x0c', '\x0d']

/-- Matching with an optional separator: `optSepMatch pre post s` models `re.search(pre + "[-\s]?" + post, s)`
succeeding: the two literal halves occur with at most one separator
character between them. -/
def optSepMatch (pre post s : String) : Bool :=
  strContains s (pre ++ post) ||
    sepChars.any (fun c => strContains s (pre ++ String.mk [c] ++ post))

/-- One entry of the rule catalog: the raw regex source text (used verbatim
in violation messages) and its match predicate on lowered text. -/
structure RulePattern where
  raw : String
  matched : String → Bool

/-- Source list `CCaiComplianceAgent.third_party_patterns` (src/agent_core.py lines 30-35). -/
def third_party_patterns : List RulePattern :=
  [⟨"third[-\\s]?party debt collector",
      fun s => optSepMatch "third" "party debt collector" s⟩,
   ⟨"we collect debts on behalf of",
      fun s => strContains s "we collect debts on behalf of"⟩,
   ⟨"collection agency", fun s => strContains s "collection agency"⟩,
   ⟨"debt collection agency", fun s => strContains s "debt collection agency"⟩]

/-- Source list `CCaiComplianceAgent.auto_fail_triggers` (src/agent_core.py lines 36-44). -/
def auto_fail_triggers : List RulePattern :=
  [⟨"skip[-\\s]?tracing", fun s => optSepMatch "skip" "tracing" s⟩,
   ⟨"payday loan", fun s => strContains s "payday loan"⟩,
   ⟨"personal loan solicitation",
      fun s => strContains s "personal loan solicitation"⟩,
   ⟨"lead generation", fun s => strContains s "lead generation"⟩,
   ⟨"data brokerage", fun s => strContains s "data brokerage"⟩,
   ⟨"crypto", fun s => strContains s "crypto"⟩,
   ⟨"credit repair", fun s => strContains s "credit repair"⟩]

/-- The submission record.  Fields default to the values `dict.get` supplies
in the source (`""` for strings, `[]` for lists); a missing field and an
empty one are indistinguishable there, so both are modelled by the default. -/
structure Submission where
  website_content : String := ""
  use_case : String := ""
  opt_in_description : String := ""
  sample_messages : List String := []
  brand_name : String := ""
  urls : List String := []
  support_email : String := ""
  brand_website : String := ""
  privacy_url : String := ""
  terms_url : String := ""
  deriving DecidableEq

/-- Source enum `ComplianceStatus` (src/agent_core.py lines 15-17). -/
inductive ComplianceStatus where
  | approvable
  | rejection_likely
  deriving DecidableEq

/-- Source dataclass `ComplianceResult` (src/agent_core.py lines 19-25). -/
structure ComplianceResult where
  status : ComplianceStatus
  violations : List String
  recommendations : List String
  confidence_score : ℚ
  score : Int
  deriving DecidableEq

/-- Section A: `_check_brand_compliance` (src/agent_core.py lines 95-119).
The source loops over each pattern list appending one violation (and 30
points) per matching pattern (`re.search` fires at most once per pattern),
then adds a single flat 25-point violation if any marketing keyword occurs
in the use case; patterns are applied to the lowered website text. -/
def check_brand_compliance (data : Submission) : List String × Nat :=
  let website_content := toLowerStr data.website_content
  let tp := third_party_patterns.filter (fun p => p.matched website_content)
  let af := auto_fail_triggers.filter (fun p => p.matched website_content)
  let use_case := toLowerStr data.use_case
  let uc := ["marketing", "lead generation", "loan offers"].any
    (fun t => strContains use_case t)
  (tp.map (fun _ => "A1: Website references third-party debt collection (CRITICAL)")
     ++ af.map (fun p => "A1: Website contains prohibited content: " ++ p.raw)
     ++ (if uc then ["A2: Use case indicates prohibited marketing/lead generation"] else []),
   30 * tp.length + 30 * af.length + (if uc then 25 else 0))

/-- Section B: `_check_optin_compliance` (src/agent_core.py lines 121-145).
Only the first sample message is checked for the "stop" keyword; an empty
message list skips that check entirely. -/
def check_optin_compliance (data : Submission) : List String × Nat :=
  let d := toLowerStr data.opt_in_description
  let v1 : List String × Nat :=
    if strContains d "existing business relationship" then
      (["B1: \x27Existing business relationship\x27 is not sufficient for SMS consent"], 25)
    else ([], 0)
  let v2 : List String × Nat :=
    if strContains d "customers provide number when calling" then
      (["B1: Phone number collection during calls is non-compliant"], 25)
    else ([], 0)
  let v3 : List String × Nat :=
    match data.sample_messages with
    | [] => ([], 0)
    | first :: _ =>
      if strContains (toLowerStr first) "stop" then ([], 0)
      else (["B1: Missing STOP instructions in initial message"], 15)
  (v1.1 ++ v2.1 ++ v3.1, v1.2 + v2.2 + v3.2)

/-- The prohibited placeholder tokens (src/agent_core.py line 162); the
brandname placeholder is deliberately absent. -/
def prohibited_placeholders : List String :=
  ["\x7b\x7burl\x7d\x7d", "\x7b\x7bcompany\x7d\x7d", "\x7b\x7bagentname\x7d\x7d"]

/-- The threatening-language phrases (src/agent_core.py line 169). -/
def threatening_terms : List String :=
  ["urgent", "final notice", "last attempt", "respond immediately"]

/-- The body of the `for i, message in enumerate(sample_messages)` loop of
`_check_template_compliance`: each message is lowered and tested for
*containment* of each placeholder (15 points) and each threatening term
(10 points) — `if placeholder in message_lower` fires at most once per
(message, pattern) pair however often the pattern occurs in the message. -/
def template_msgs_check : Nat → List String → List String × Nat
  | _, [] => ([], 0)
  | i, m :: rest =>
    let ml := toLowerStr m
    let ph := prohibited_placeholders.filter (fun p => strContains ml p)
    let th := threatening_terms.filter (fun t => strContains ml t)
    let r := template_msgs_check (i + 1) rest
    (ph.map (fun p => "C2: Prohibited placeholder " ++ p ++ " in message " ++ toString (i + 1))
       ++ th.map (fun t => "C3: Threatening language \x27" ++ t ++ "\x27 in message " ++ toString (i + 1))
       ++ r.1,
     15 * ph.length + 10 * th.length + r.2)

/-- Section C: `_check_template_compliance` (src/agent_core.py lines 147-175). -/
def check_template_compliance (data : Submission) : List String × Nat :=
  template_msgs_check 0 data.sample_messages

/-- The URL-shortener domains (src/agent_core.py line 185); matched
case-sensitively, as the source does not lower the url strings. -/
def shorteners : List String := ["bit.ly", "tinyurl", "t.co"]

/-- The urls flagged by the shortener scan of `_check_url_compliance`. -/
def url_shortener_hits (data : Submission) : List String :=
  data.urls.filter (fun url => shorteners.any (fun s => strContains url s))

/-- Models `support_email.split(sep)[1].lower()`: `none` models the `IndexError`
raised when the email has no `@` (caught by the checker). -/
def email_domain (e : String) : Option String :=
  match splitOnChar '@' e.data with
  | _ :: d :: _ => some (toLowerStr ⟨d⟩)
  | _ => none

/-- First occurrence split: `split_first sep l = some (pre, post)` when
`l = pre ++ sep :: post` with `sep ∉ pre`. -/
def split_first (sep : Char) : List Char → Option (List Char × List Char)
  | [] => none
  | c :: cs =>
    if c = sep then some ([], cs)
    else (split_first sep cs).map (fun p => (c :: p.1, p.2))

/-- A valid URL scheme per `urllib.parse`: nonempty, starts with a letter,
then letters, digits, `+`, `-`, `.`. -/
def valid_scheme (s : List Char) : Bool :=
  match s with
  | [] => false
  | c :: cs => c.isAlpha && cs.all (fun d => d.isAlphanum || d = '+' || d = '-' || d = '.')

/-- Drop a leading `scheme:` prefix when present, as `urlsplit` does. -/
def strip_scheme (u : List Char) : List Char :=
  match split_first ':' u with
  | some p => if valid_scheme p.1 then p.2 else u
  | none => u

/-- The netloc extends to the first `/`, `?` or `#`. -/
def take_netloc (l : List Char) : List Char :=
  l.takeWhile (fun c => c ≠ '/' && c ≠ '?' && c ≠ '#')

/-- Models `urlparse(url).netloc`: the authority after `//` (empty when the URL has
no `//` part).  `none` models the `ValueError` urlsplit raises on an
unbalanced IPv6 bracket in the netloc (the only exception reachable from
this ASCII text; caught by the checker). -/
def urlparse_netloc (u : String) : Option String :=
  match strip_scheme u.data with
  | '/' :: '/' :: t =>
    let n := take_netloc t
    if (n.contains '[' && !n.contains ']') || (n.contains ']' && !n.contains '[') then none
    else some ⟨n⟩
  | _ => some ""

/-- The try-block of `_check_url_compliance` (src/agent_core.py lines
194-201): email domain, then website netloc lowered with a leading `www.`
stripped; `none` when either step raises. -/
def domain_pair (support_email brand_website : String) : Option (String × String) := do
  let ed ← email_domain support_email
  let wd0 ← urlparse_netloc brand_website
  let wd1 := toLowerStr wd0
  let wd := if ("www.".data.isPrefixOf wd1.data) then (⟨wd1.data.drop 4⟩ : String) else wd1
  some (ed, wd)

/-- Section D: `_check_url_compliance` (src/agent_core.py lines 177-212).
One 20-point violation per url containing a shortener; then, when both
email and website are nonempty, a 5-point mismatch violation when the
domains differ, or a 3-point parse-failure violation when the domain
computation raises (the exception is caught here, never propagated). -/
def check_url_compliance (data : Submission) : List String × Nat :=
  let hits := url_shortener_hits data
  let base_v := hits.map (fun _ => "D1: URL shorteners are not allowed")
  let base_p := 20 * hits.length
  if data.support_email ≠ "" ∧ data.brand_website ≠ "" then
    match domain_pair data.support_email data.brand_website with
    | some dp =>
      if dp.1 ≠ dp.2 then
        (base_v ++ ["D2: Support email domain (" ++ dp.1 ++ ") does not match website domain (" ++ dp.2 ++ ")"],
         base_p + 5)
      else (base_v, base_p)
    | none =>
      (base_v ++ ["D3: Unable to validate email domain match"], base_p + 3)
  else (base_v, base_p)

/-- Section E: `_check_legal_compliance` (src/agent_core.py lines 214-227).
`not data.get(...)` is true exactly when the field is missing or empty. -/
def check_legal_compliance (data : Submission) : List String × Nat :=
  let v1 : List String × Nat :=
    if data.privacy_url = "" then (["E1: Privacy Policy URL missing"], 15) else ([], 0)
  let v2 : List String × Nat :=
    if data.terms_url = "" then (["E1: Terms & Conditions URL missing"], 15) else ([], 0)
  (v1.1 ++ v2.1, v1.2 + v2.2)

/-- Section I: `_check_regulatory_compliance` (src/agent_core.py lines
229-237), a deliberate no-op stage. -/
def check_regulatory_compliance (_data : Submission) : List String × Nat :=
  ([], 0)

/-- The per-violation branch of `_generate_recommendations`
(src/agent_core.py lines 243-251): an if/elif chain over the lowered
violation text, so each violation yields at most one recommendation and
earlier substrings win. -/
def recommendation_for (violation : String) : Option String :=
  let v := toLowerStr violation
  if strContains v "third-party debt collection" then
    some "Remove all references to third-party debt collection from website"
  else if strContains v "stop instructions" then
    some "Include \x27Reply STOP to opt out\x27 in initial message"
  else if strContains v "privacy policy" then
    some "Provide valid Privacy Policy URL"
  else if strContains v "terms" then
    some "Provide valid Terms & Conditions URL"
  else none

/-- Source method `_generate_recommendations` (src/agent_core.py lines 239-253).
`list(set(recommendations))` deduplicates with unspecified order; it is
modelled by first-occurrence deduplication — every property proved about
it (no duplicates, membership, counts) is order-independent. -/
def generate_recommendations (violations : List String) : List String :=
  (violations.filterMap recommendation_for).dedup

/-- Source method `_calculate_confidence` (src/agent_core.py lines 255-264); the
`violations` argument is accepted and ignored, as in the source. -/
def calculate_confidence (_violations : List String) (score : Int) : ℚ :=
  if 99 ≤ score then 0.99
  else if 90 ≤ score then 0.85
  else if 80 ≤ score then 0.70
  else 0.50

/-- The concatenated violation list of `evaluate_compliance`, in the fixed
section order A, B, C, D, E, I. -/
def all_violations (data : Submission) : List String :=
  (check_brand_compliance data).1 ++ (check_optin_compliance data).1
    ++ (check_template_compliance data).1 ++ (check_url_compliance data).1
    ++ (check_legal_compliance data).1 ++ (check_regulatory_compliance data).1

/-- The score of `evaluate_compliance`: 100 minus each section subtotal in
turn, clamped at 0 (src/agent_core.py lines 49-81). -/
def final_score (data : Submission) : Int :=
  max 0 ((((((100 - (check_brand_compliance data).2) - (check_optin_compliance data).2)
    - (check_template_compliance data).2) - (check_url_compliance data).2)
    - (check_legal_compliance data).2) - (check_regulatory_compliance data).2)

/-- Source method `evaluate_compliance` (src/agent_core.py lines 46-93): runs all six
section checkers, clamps the score, derives the status from the score
threshold *and* emptiness of the violation list, and attaches
recommendations and the confidence band of the final score. -/
def evaluate_compliance (data : Submission) : ComplianceResult :=
  { status :=
      if 99 ≤ final_score data ∧ all_violations data = [] then
        ComplianceStatus.approvable
      else ComplianceStatus.rejection_likely,
    violations := all_violations data,
    recommendations := generate_recommendations (all_violations data),
    confidence_score := calculate_confidence (all_violations data) (final_score data),
    score := final_score data }

/-- The fields of a processed result that `get_compliance_summary` reads
(`r.get("compliant", False)`, `r.get("score", 0)`, `r.get("violations", [])`). -/
structure StrandResult where
  compliant : Bool := false
  score : Int := 0
  violations : List String := []
  deriving DecidableEq

/-- Floor of a rational (`x.den` is positive, so floor division of the
numerator by the denominator). -/
def qfloor (x : ℚ) : Int := Int.fdiv x.num x.den

/-- Round-half-to-even to an integer, the rule Python `round` applies
(modelled on exact rationals rather than binary floats). -/
def round_half_even (x : ℚ) : Int :=
  let f := qfloor x
  let frac := x - f
  if frac < 1 / 2 then f
  else if 1 / 2 < frac then f + 1
  else if f % 2 = 0 then f else f + 1

/-- Python `round(x, n)` modelled on rationals. -/
def round_to (ndigits : Nat) (x : ℚ) : ℚ :=
  (round_half_even (x * 10 ^ ndigits) : ℚ) / 10 ^ ndigits

/-- Increment the count of `key` in an insertion-ordered association list,
as a Python dict update does. -/
def bump_count (counts : List (String × Nat)) (key : String) : List (String × Nat) :=
  match counts with
  | [] => [(key, 1)]
  | (k, n) :: rest =>
    if k = key then (k, n + 1) :: rest else (k, n) :: bump_count rest key

/-- Models `violation.split(":")[0]`, the section tag of a violation message. -/
def section_of (violation : String) : String :=
  ⟨(splitOnChar ':' violation.data).headD []⟩

/-- The summary record returned by `get_compliance_summary`. -/
structure ComplianceSummary where
  total_communications : Nat
  approvable_count : Nat
  rejection_likely_count : Nat
  approval_rate : ℚ
  average_score : ℚ
  common_violations : List (String × Nat)
  deriving DecidableEq

/-- Source method `ComplianceStrand.get_compliance_summary` (src/compliance_strand.py
lines 45-65): counts, guarded divisions (an empty batch yields 0 instead
of dividing by zero), two-decimal approval rate, one-decimal mean score,
and violation counts grouped by section tag. -/
def get_compliance_summary (results : List StrandResult) : ComplianceSummary :=
  let total := results.length
  let approvable := (results.filter (fun r => r.compliant)).length
  let avg_score : ℚ :=
    if 0 < total then ((results.map (fun r => r.score)).sum : ℚ) / total else 0
  let counts := results.foldl
    (fun acc r => r.violations.foldl (fun a v => bump_count a (section_of v)) acc) []
  { total_communications := total,
    approvable_count := approvable,
    rejection_likely_count := total - approvable,
    approval_rate :=
      if 0 < total then round_to 2 ((approvable : ℚ) / total * 100) else 0,
    average_score := round_to 1 avg_score,
    common_violations := counts }

/-- C1: for every submission, the final score is the penalty sum subtracted
from 100 and floored at 0 (hence between 0 and 100), and the status is
approvable exactly when the score reaches 99 and the violation list is
empty — a non-empty violation list forces rejection even past the score
threshold. -/
theorem C1_score_invariant (data : Submission) :
    (evaluate_compliance data).score =
      max 0 (100 - ((check_brand_compliance data).2 + (check_optin_compliance data).2
        + (check_template_compliance data).2 + (check_url_compliance data).2
        + (check_legal_compliance data).2 + (check_regulatory_compliance data).2 : Int))
    ∧ 0 ≤ (evaluate_compliance data).score
    ∧ (evaluate_compliance data).score ≤ 100
    ∧ ((evaluate_compliance data).status = ComplianceStatus.approvable ↔
        99 ≤ (evaluate_compliance data).score ∧ (evaluate_compliance data).violations = []) := by
  refine ⟨?_, ?_, ?_, ?_⟩
  · show final_score data = _
    rw [final_score]
    congr 1
    ring
  · exact le_max_left _ _
  · show final_score data ≤ 100
    rw [final_score]
    apply max_le
    · norm_num
    · have hA := Int.ofNat_nonneg (check_brand_compliance data).2
      have hB := Int.ofNat_nonneg (check_optin_compliance data).2
      have hC := Int.ofNat_nonneg (check_template_compliance data).2
      have hD := Int.ofNat_nonneg (check_url_compliance data).2
      have hE := Int.ofNat_nonneg (check_legal_compliance data).2
      have hF := Int.ofNat_nonneg (check_regulatory_compliance data).2
      omega
  · show (if 99 ≤ final_score data ∧ all_violations data = [] then
        ComplianceStatus.approvable else ComplianceStatus.rejection_likely)
          = ComplianceStatus.approvable ↔
        99 ≤ final_score data ∧ all_violations data = []
    split_ifs with h
    · exact ⟨fun _ => h, fun _ => rfl⟩
    · exact iff_of_false (by decide) h

/-- C2: for every submission on which none of the six section checkers
finds a trigger (each returns no violations and a zero subtotal), evaluate
returns score 100, status approvable, an empty violation list, and
confidence 0.99. -/
theorem C2_clean_submission (data : Submission)
    (hA : check_brand_compliance data = ([], 0))
    (hB : check_optin_compliance data = ([], 0))
    (hC : check_template_compliance data = ([], 0))
    (hD : check_url_compliance data = ([], 0))
    (hE : check_legal_compliance data = ([], 0))
    (hF : check_regulatory_compliance data = ([], 0)) :
    (evaluate_compliance data).score = 100
    ∧ (evaluate_compliance data).status = ComplianceStatus.approvable
    ∧ (evaluate_compliance data).violations = []
    ∧ (evaluate_compliance data).confidence_score = 0.99 := by
  have hs : final_score data = 100 := by
    rw [final_score, hA, hB, hC, hD, hE, hF]
    decide
  have hv : all_violations data = [] := by
    rw [all_violations, hA, hB, hC, hD, hE, hF]
    rfl
  refine ⟨hs, ?_, hv, ?_⟩
  · show (if 99 ≤ final_score data ∧ all_violations data = [] then
        ComplianceStatus.approvable else ComplianceStatus.rejection_likely)
          = ComplianceStatus.approvable
    rw [if_pos ⟨by rw [hs]; norm_num, hv⟩]
  · show calculate_confidence (all_violations data) (final_score data) = 0.99
    rw [hs, calculate_confidence, if_pos (by norm_num : (99 : Int) ≤ 100)]

/-- Witness for C2 at a concrete clean submission (legal URLs present,
everything else absent). -/
theorem C2_clean_submission_witness :
    check_brand_compliance { privacy_url := "p", terms_url := "t" } = ([], 0)
    ∧ ((evaluate_compliance { privacy_url := "p", terms_url := "t" }).score = 100
       ∧ (evaluate_compliance { privacy_url := "p", terms_url := "t" }).status
          = ComplianceStatus.approvable
       ∧ (evaluate_compliance { privacy_url := "p", terms_url := "t" }).violations = []
       ∧ (evaluate_compliance { privacy_url := "p", terms_url := "t" }).confidence_score = 0.99) :=
  ⟨by decide,
   C2_clean_submission { privacy_url := "p", terms_url := "t" }
     (by decide) (by decide) (by decide) (by decide) (by decide) (by decide)⟩

/-- C6: for every submission, the confidence returned by evaluate is the
fixed step function of the final score (0.99 from 99, 0.85 from 90, 0.70
from 80, else 0.50) and takes no other values. -/
theorem C6_confidence_step (data : Submission) :
    (evaluate_compliance data).confidence_score =
      (if 99 ≤ (evaluate_compliance data).score then (0.99 : ℚ)
       else if 90 ≤ (evaluate_compliance data).score then 0.85
       else if 80 ≤ (evaluate_compliance data).score then 0.70
       else 0.50)
    ∧ ((evaluate_compliance data).confidence_score = 0.99
       ∨ (evaluate_compliance data).confidence_score = 0.85
       ∨ (evaluate_compliance data).confidence_score = 0.70
       ∨ (evaluate_compliance data).confidence_score = 0.50) := by
  have h : (evaluate_compliance data).confidence_score
      = calculate_confidence (all_violations data) (final_score data) := rfl
  have hsc : (evaluate_compliance data).score = final_score data := rfl
  rw [h, hsc, calculate_confidence]
  constructor
  · rfl
  · split_ifs <;> simp

/-- The penalty subtotal of the Template section is the sum, over the
sample messages, of 15 points per prohibited placeholder contained in the
message plus 10 points per threatening term contained in it; the running
message index does not affect the subtotal. -/
theorem template_penalty_sum (i : Nat) (l : List String) :
    (template_msgs_check i l).2 =
      (l.map (fun m =>
        15 * (prohibited_placeholders.filter (fun p => strContains (toLowerStr m) p)).length
          + 10 * (threatening_terms.filter (fun t => strContains (toLowerStr m) t)).length)).sum := by
  induction l generalizing i with
  | nil => rfl
  | cons m rest ih => simp [template_msgs_check, ih]

/-- C3 counterexample: one message containing the url placeholder twice
receives a single 15-point Template violation, not one violation per
occurrence — containment, not occurrence counting, drives the check. -/
theorem C3_template_counterexample :
    check_template_compliance { sample_messages := ["\x7b\x7burl\x7d\x7d and \x7b\x7burl\x7d\x7d"] }
      = (["C2: Prohibited placeholder \x7b\x7burl\x7d\x7d in message 1"], 15)
    ∧ (check_template_compliance
        { sample_messages := ["\x7b\x7burl\x7d\x7d and \x7b\x7burl\x7d\x7d"] }).2 ≠ 30
    ∧ (check_template_compliance
        { sample_messages := ["\x7b\x7burl\x7d\x7d and \x7b\x7burl\x7d\x7d"] }).1.length ≠ 2 := by
  decide

/-- C3 (amended): the Template checker scans every message independently
and, per message, adds one 15-point violation for each prohibited
placeholder (url, company, agentname — brandname is exempt) contained in
the message and one 10-point violation for each threatening phrase
contained in it, regardless of how many times the pattern occurs inside
that one message; penalties accumulate across messages and across distinct
patterns.  A message containing the company placeholder once yields
exactly one 15-point Template violation, and the brandname placeholder in
the same message triggers nothing. -/
theorem C3_template_amended (data : Submission) :
    (check_template_compliance data).2 =
      (data.sample_messages.map (fun m =>
        15 * (prohibited_placeholders.filter (fun p => strContains (toLowerStr m) p)).length
          + 10 * (threatening_terms.filter (fun t => strContains (toLowerStr m) t)).length)).sum
    ∧ check_template_compliance
        { sample_messages := ["Hello \x7b\x7bcompany\x7d\x7d from \x7b\x7bbrandname\x7d\x7d"] }
      = (["C2: Prohibited placeholder \x7b\x7bcompany\x7d\x7d in message 1"], 15) :=
  ⟨template_penalty_sum 0 data.sample_messages, by decide⟩

/-- C4: when both the support email and the brand website are present, a
successful domain extraction with differing domains records the 5-point
mismatch violation on top of the shortener subtotal, while a failed
extraction (the exception is caught inside the checker) records the
distinct 3-point parse-failure violation instead, and the overall
evaluation still completes with that violation in its list. -/
theorem C4_domain_check (data : Submission)
    (h1 : data.support_email ≠ "") (h2 : data.brand_website ≠ "") :
    (∀ ed wd, domain_pair data.support_email data.brand_website = some (ed, wd) → ed ≠ wd →
      ("D2: Support email domain (" ++ ed ++ ") does not match website domain (" ++ wd ++ ")")
          ∈ (check_url_compliance data).1
        ∧ (check_url_compliance data).2 = 20 * (url_shortener_hits data).length + 5)
    ∧ (domain_pair data.support_email data.brand_website = none →
      "D3: Unable to validate email domain match" ∈ (check_url_compliance data).1
        ∧ (check_url_compliance data).2 = 20 * (url_shortener_hits data).length + 3
        ∧ "D3: Unable to validate email domain match" ∈ (evaluate_compliance data).violations) := by
  constructor
  · intro ed wd hp hne
    have hurl : check_url_compliance data =
        ((url_shortener_hits data).map (fun _ => "D1: URL shorteners are not allowed")
           ++ ["D2: Support email domain (" ++ ed ++ ") does not match website domain (" ++ wd ++ ")"],
         20 * (url_shortener_hits data).length + 5) := by
      rw [check_url_compliance, if_pos ⟨h1, h2⟩, hp]
      simp [hne]
    rw [hurl]
    exact ⟨List.mem_append_right _ (List.mem_singleton.mpr rfl), rfl⟩
  · intro hp
    have hurl : check_url_compliance data =
        ((url_shortener_hits data).map (fun _ => "D1: URL shorteners are not allowed")
           ++ ["D3: Unable to validate email domain match"],
         20 * (url_shortener_hits data).length + 3) := by
      rw [check_url_compliance, if_pos ⟨h1, h2⟩, hp]
    have hmem : "D3: Unable to validate email domain match" ∈ (check_url_compliance data).1 := by
      rw [hurl]
      exact List.mem_append_right _ (List.mem_singleton.mpr rfl)
    refine ⟨hmem, by rw [hurl], ?_⟩
    show _ ∈ all_violations data
    rw [all_violations]
    exact List.mem_append_left _ (List.mem_append_left _ (List.mem_append_right _ hmem))

/-- Witness for C4: a support email on x.com against a website on y.com
parses successfully and fires the 5-point mismatch violation (not the
3-point parse-failure one). -/
theorem C4_domain_check_witness :
    domain_pair "a@x.com" "https://y.com" = some ("x.com", "y.com")
    ∧ ("D2: Support email domain (x.com) does not match website domain (y.com)"
        ∈ (check_url_compliance
            { support_email := "a@x.com", brand_website := "https://y.com" }).1
       ∧ (check_url_compliance
            { support_email := "a@x.com", brand_website := "https://y.com" }).2
          = 20 * (url_shortener_hits
            { support_email := "a@x.com", brand_website := "https://y.com" }).length + 5) :=
  ⟨by decide,
   (C4_domain_check { support_email := "a@x.com", brand_website := "https://y.com" }
      (by decide) (by decide)).1 "x.com" "y.com" (by decide) (by decide)⟩

/-- C5: the Opt-in checker applies the missing-STOP rule only to the first
sample message — an empty message list skips the check entirely, and a
first message containing the stop keyword (case-insensitively) suppresses
the violation whatever the later messages contain. -/
theorem C5_optin_first_message (data : Submission) :
    (data.sample_messages = [] →
      "B1: Missing STOP instructions in initial message" ∉ (check_optin_compliance data).1)
    ∧ (∀ first rest, data.sample_messages = first :: rest →
        strContains (toLowerStr first) "stop" = true →
        "B1: Missing STOP instructions in initial message" ∉ (check_optin_compliance data).1) := by
  constructor
  · intro h
    rw [check_optin_compliance, h]
    split_ifs <;> decide
  · intro first rest h hstop
    rw [check_optin_compliance, h]
    simp only [hstop]
    split_ifs <;> decide

/-- Witness for C5: a first message replying STOP suppresses the
missing-STOP violation even though a later message would not contain it. -/
theorem C5_optin_first_message_witness :
    "B1: Missing STOP instructions in initial message"
      ∉ (check_optin_compliance { sample_messages := ["Reply STOP to end", "urgent"] }).1 :=
  (C5_optin_first_message { sample_messages := ["Reply STOP to end", "urgent"] }).2
    "Reply STOP to end" ["urgent"] rfl (by decide)

/-- C7: the summary of an empty result list is total 0, approval rate 0 and
average score 0 (the divisions are guarded, so no division is attempted);
for a non-empty list the approval rate is the approvable fraction as a
percentage rounded to two decimals and the average score is the mean score
rounded to one decimal. -/
theorem C7_summary_rounding :
    ((get_compliance_summary []).total_communications = 0
      ∧ (get_compliance_summary []).approval_rate = 0
      ∧ (get_compliance_summary []).average_score = 0)
    ∧ ∀ results : List StrandResult, results ≠ [] →
        (get_compliance_summary results).approval_rate
          = round_to 2 ((((results.filter (fun r => r.compliant)).length : ℚ)
              / results.length) * 100)
        ∧ (get_compliance_summary results).average_score
          = round_to 1 (((results.map (fun r => r.score)).sum : ℚ) / results.length) := by
  constructor
  · refine ⟨rfl, rfl, ?_⟩
    show round_to 1 _ = 0
    norm_num [round_to, round_half_even, qfloor]
  · intro rs hne
    have hpos : 0 < rs.length := List.length_pos.mpr hne
    constructor
    · simp only [get_compliance_summary, if_pos hpos]
    · simp only [get_compliance_summary, if_pos hpos]

/-- Witness for C7 at a one-element batch. -/
theorem C7_summary_witness :
    ([({ compliant := true, score := 80 } : StrandResult)] ≠ [])
    ∧ ((get_compliance_summary [{ compliant := true, score := 80 }]).approval_rate
        = round_to 2 (((([({ compliant := true, score := 80 } : StrandResult)].filter
              (fun r => r.compliant)).length : ℚ)
            / ([({ compliant := true, score := 80 } : StrandResult)].length)) * 100)
       ∧ (get_compliance_summary [{ compliant := true, score := 80 }]).average_score
        = round_to 1 ((([({ compliant := true, score := 80 } : StrandResult)].map
              (fun r => r.score)).sum : ℚ)
            / ([({ compliant := true, score := 80 } : StrandResult)].length))) :=
  ⟨by decide, C7_summary_rounding.2 [{ compliant := true, score := 80 }] (by decide)⟩

/-- C8: for every violation list the recommendation list carries no
duplicate strings (deduplication is idempotent), and whenever violations
mapping to the provide-terms-URL recommendation are present that
recommendation appears exactly once. -/
theorem C8_recommendation_dedup (violations : List String) :
    (generate_recommendations violations).Nodup
    ∧ (generate_recommendations violations).dedup = generate_recommendations violations
    ∧ ∀ v1 v2, v1 ∈ violations → v2 ∈ violations →
        recommendation_for v1 = some "Provide valid Terms & Conditions URL" →
        recommendation_for v2 = some "Provide valid Terms & Conditions URL" →
        (generate_recommendations violations).count "Provide valid Terms & Conditions URL" = 1 := by
  refine ⟨List.nodup_dedup _, List.dedup_eq_self.mpr (List.nodup_dedup _), ?_⟩
  intro v1 v2 h1 _h2 hr1 _hr2
  rw [generate_recommendations, List.count_dedup, if_pos]
  exact List.mem_filterMap.mpr ⟨v1, h1, hr1⟩

/-- Witness for C8: two copies of the missing-terms violation yield the
provide-terms recommendation exactly once, in a duplicate-free list. -/
theorem C8_recommendation_dedup_witness :
    (generate_recommendations
        ["E1: Terms & Conditions URL missing", "E1: Terms & Conditions URL missing"]).Nodup
    ∧ (generate_recommendations
        ["E1: Terms & Conditions URL missing", "E1: Terms & Conditions URL missing"]).count
        "Provide valid Terms & Conditions URL" = 1 :=
  ⟨(C8_recommendation_dedup
      ["E1: Terms & Conditions URL missing", "E1: Terms & Conditions URL missing"]).1,
   (C8_recommendation_dedup
      ["E1: Terms & Conditions URL missing", "E1: Terms & Conditions URL missing"]).2.2
     "E1: Terms & Conditions URL missing" "E1: Terms & Conditions URL missing"
     (by decide) (by decide) (by decide) (by decide)⟩

/-- C9: the cryptocurrency trigger is the unanchored pattern crypto, so any
website text containing it as a substring (also inside a longer word)
receives the 30-point prohibited-content Brand violation, and the
auto-fail catalog also carries a personal-loan-solicitation pattern. -/
theorem C9_crypto_substring (data : Submission)
    (h : strContains (toLowerStr data.website_content) "crypto" = true) :
    "A1: Website contains prohibited content: crypto" ∈ (check_brand_compliance data).1
    ∧ 30 ≤ (check_brand_compliance data).2
    ∧ "personal loan solicitation" ∈ auto_fail_triggers.map (fun p => p.raw) := by
  have hcp : (⟨"crypto", fun s => strContains s "crypto"⟩ : RulePattern) ∈ auto_fail_triggers :=
    List.mem_cons_of_mem _ (List.mem_cons_of_mem _ (List.mem_cons_of_mem _
      (List.mem_cons_of_mem _ (List.mem_cons_of_mem _ (List.mem_cons_self _ _)))))
  have haf : (⟨"crypto", fun s => strContains s "crypto"⟩ : RulePattern)
      ∈ auto_fail_triggers.filter (fun p => p.matched (toLowerStr data.website_content)) :=
    List.mem_filter.mpr ⟨hcp, h⟩
  refine ⟨?_, ?_, by decide⟩
  · simp only [check_brand_compliance]
    exact List.mem_append_left _ (List.mem_append_right _
      (List.mem_map.mpr ⟨_, haf, by decide⟩))
  · simp only [check_brand_compliance]
    have hlen : 0 < (auto_fail_triggers.filter
        (fun p => p.matched (toLowerStr data.website_content))).length :=
      List.length_pos.mpr (List.ne_nil_of_mem haf)
    split_ifs <;> omega

/-- Witness for C9: the word cryptographic contains crypto and fires the
Brand violation. -/
theorem C9_crypto_substring_witness :
    strContains (toLowerStr "We offer Cryptographic services") "crypto" = true
    ∧ ("A1: Website contains prohibited content: crypto"
        ∈ (check_brand_compliance { website_content := "We offer Cryptographic services" }).1
       ∧ 30 ≤ (check_brand_compliance { website_content := "We offer Cryptographic services" }).2
       ∧ "personal loan solicitation" ∈ auto_fail_triggers.map (fun p => p.raw)) :=
  ⟨by decide,
   C9_crypto_substring { website_content := "We offer Cryptographic services" } (by decide)⟩

/-- C10: each violation message yields at most one recommendation, the
substring checks are tried in a fixed first-match-wins order (third-party
debt collection, stop instructions, privacy policy, terms) — so a message
matching the privacy-policy substring yields the privacy recommendation
even when it also contains terms — and a message matching none of the four
substrings yields nothing. -/
theorem C10_recommendation_first_match (v : String) :
    (generate_recommendations [v]).length ≤ 1
    ∧ (strContains (toLowerStr v) "third-party debt collection" = false →
       strContains (toLowerStr v) "stop instructions" = false →
       strContains (toLowerStr v) "privacy policy" = true →
       recommendation_for v = some "Provide valid Privacy Policy URL")
    ∧ (strContains (toLowerStr v) "third-party debt collection" = false →
       strContains (toLowerStr v) "stop instructions" = false →
       strContains (toLowerStr v) "privacy policy" = false →
       strContains (toLowerStr v) "terms" = false →
       recommendation_for v = none) := by
  refine ⟨?_, ?_, ?_⟩
  · rw [generate_recommendations]
    have hlen := (List.dedup_sublist ([v].filterMap recommendation_for)).length_le
    have hfm : ([v].filterMap recommendation_for).length ≤ 1 := by
      cases hrec : recommendation_for v <;> simp [List.filterMap, hrec]
    omega
  · intro h1 h2 h3
    simp [recommendation_for, h1, h2, h3]
  · intro h1 h2 h3 h4
    simp [recommendation_for, h1, h2, h3, h4]

/-- Witness for C10: a violation text containing both privacy policy and
terms yields only the privacy recommendation; a violation text matching
none of the four substrings yields no recommendation. -/
theorem C10_recommendation_first_match_witness :
    recommendation_for "X: privacy policy and terms page broken"
      = some "Provide valid Privacy Policy URL"
    ∧ recommendation_for "A1: Website contains prohibited content: crypto" = none :=
  ⟨(C10_recommendation_first_match "X: privacy policy and terms page broken").2.1
     (by decide) (by decide) (by decide),
   (C10_recommendation_first_match "A1: Website contains prohibited content: crypto").2.2
     (by decide) (by decide) (by decide) (by decide)⟩
